import Mathlib

/-!
Verification of the kitwe command-resolution and execution core
(`src/runner/resolver.ts`, `src/runner/executor.ts`, `src/core/config.ts`)
as a shallow embedding in Lean 4.

Conventions of the embedding:
* TS `string` is Lean `String`; `string[]` is `List String`.
* `Record<string, string>` objects are association lists `List (String × String)`
  (keys are unique in a JS object literal, lookup takes the first match).
* Optional TS fields are `Option _`.  TS truthiness tests on optional strings
  (`if (spec.script)`) are `strTruthy`, which is false for `none` and for the
  empty string.
* `number | null` exit codes are `Option Int`.
* The filesystem is abstracted by an existence predicate `String → Bool`
  standing for `existsSync`, plus the parsed `kitwe.yaml` contents
  (`Option KitweConfig`, `none` when the file is absent; configs that fail
  YAML parsing or Zod validation raise in the source and are outside the
  claims under study).
* `path.resolve(base, p)` / `path.join(a, b)` are modelled without
  `.`/`..` normalisation, which the source never relies on.
* Subprocess execution is an oracle (`Nat → Except String CommandResult` for
  pre-commands, `Except String CommandResult` for the main command): `.error`
  is a thrown spawn failure, `.ok` is the settled `CommandResult`.
* In string literals, `\x27` is an apostrophe character.
-/

-- =============================================================================
-- String helpers (JS `String.prototype.includes`, `startsWith`, `Array.join`)
-- =============================================================================

/-- Does the first character list occur at the very start of the second? -/
def prefAt : List Char → List Char → Bool
  | [], _ => true
  | _ :: _, [] => false
  | a :: as, b :: bs => a == b && prefAt as bs

/-- Does `sub` occur contiguously anywhere in the character list? -/
def hasSub (sub : List Char) : List Char → Bool
  | [] => prefAt sub []
  | c :: rest => prefAt sub (c :: rest) || hasSub sub rest

/-- JS `s.includes(sub)`: substring containment. -/
def strIncludes (s sub : String) : Bool := hasSub sub.data s.data

/-- JS `s.startsWith(p)`. -/
def strStartsW (s p : String) : Bool := prefAt p.data s.data

/-- JS `Array.prototype.join(sep)` on a list of strings. -/
def joinSep (sep : String) : List String → String
  | [] => ""
  | [s] => s
  | s :: rest => s ++ sep ++ joinSep sep rest

/-- Node `path.resolve(base, p)` (no `.`/`..` normalisation modelled). -/
def pathResolve (base p : String) : String :=
  if strStartsW p "/" then p else base ++ "/" ++ p

/-- Node `path.join(a, b)` (no normalisation modelled). -/
def pathJoin (a b : String) : String := a ++ "/" ++ b

/-- TS truthiness of an optional string: `undefined` and `""` are falsy. -/
def strTruthy : Option String → Bool
  | none => false
  | some s => s ≠ ""

-- =============================================================================
-- Data model (src/types/index.ts)
-- =============================================================================

inductive RunnerType where
  | npm | pnpm | yarn | npx
deriving DecidableEq, Repr

/-- The literal string of a runner, as it appears in argv. -/
def RunnerType.str : RunnerType → String
  | .npm => "npm"
  | .pnpm => "pnpm"
  | .yarn => "yarn"
  | .npx => "npx"

structure PreCommand where
  argv : List String
  env : Option (List (String × String)) := none
  cwd : Option String := none
deriving DecidableEq, Repr

/-- Persisted `run:` section of kitwe.yaml after Zod validation and
snake_case→camelCase conversion (`convertToTypescript`).  Zod supplies the
defaults: `args = []`, `skipSetup = false`. -/
structure RunConfig where
  runner : Option RunnerType := none
  script : Option String := none
  configPath : Option String := none
  args : List String := []
  timeoutSeconds : Nat := 1200
  artifactsDir : String := "artifacts/kitwe"
  outputDir : Option String := none
  env : Option (List (String × String)) := none
  skipSetup : Bool := false
  preCommands : Option (List PreCommand) := none
deriving DecidableEq, Repr

/-- Persisted `tests:` section (test discovery — never read by the core). -/
structure TestsConfig where
  testDir : Option String := none
  pattern : Option String := none
  defaultOutputPath : Option String := none
deriving DecidableEq, Repr

/-- A parsed and validated kitwe.yaml.  `setupPreCommands` is
`setup.pre_commands`. -/
structure KitweConfig where
  run : RunConfig := {}
  setupPreCommands : Option (List PreCommand) := none
  tests : TestsConfig := {}
deriving DecidableEq, Repr

/-- Caller-supplied intent for one test run.  `skipSetup` is an optional TS
boolean tested for truthiness, so `undefined` and `false` coincide. -/
structure RunSpec where
  projectRoot : String
  artifactsDir : String
  timeoutSeconds : Nat
  script : Option String := none
  configPath : Option String := none
  runner : Option RunnerType := none
  args : Option (List String) := none
  env : Option (List (String × String)) := none
  skipSetup : Bool := false
  testName : Option String := none
  outputDir : Option String := none
deriving DecidableEq, Repr

inductive Mode where
  | cli_script | cli_config | yaml_script | yaml_config
deriving DecidableEq, Repr

structure ResolvedCommand where
  argv : List String
  cwd : String
  mode : Mode
  env : Option (List (String × String)) := none
  preCommands : Option (List PreCommand) := none
deriving DecidableEq, Repr

structure ResolvedError where
  errorType : String
  message : String
deriving DecidableEq, Repr

inductive ResolveResult where
  | cmd : ResolvedCommand → ResolveResult
  | err : ResolvedError → ResolveResult
deriving DecidableEq, Repr

/-- The world a resolution runs against: `fs p` is `existsSync(p)`, and
`kitweYaml` is the parsed kitwe.yaml at the project root (`none` if the file
does not exist). -/
structure World where
  fs : String → Bool
  kitweYaml : Option KitweConfig

-- =============================================================================
-- Config loading (src/core/config.ts)
-- =============================================================================

/-- `loadRunConfig`: the `run` section of kitwe.yaml, `null` if no file. -/
def loadRunConfig (cfg : Option KitweConfig) : Option RunConfig :=
  cfg.map (·.run)

/-- `getRunPreCommands`: merged pre_commands for the run phase.  Setup-phase
commands are included unless the *persisted* `run.skip_setup` is true;
run-phase commands are always included after them. -/
def getRunPreCommands (cfg : Option KitweConfig) : List PreCommand :=
  match cfg with
  | none => []
  | some raw =>
    (if !raw.run.skipSetup then raw.setupPreCommands.getD [] else [])
      ++ raw.run.preCommands.getD []

-- =============================================================================
-- Resolver (src/runner/resolver.ts)
-- =============================================================================

/-- `detectPackageManager`: lock-file markers, priority pnpm > yarn > npm. -/
def detectPackageManager (fs : String → Bool) (projectRoot : String) : RunnerType :=
  if fs (pathResolve projectRoot "pnpm-lock.yaml") then .pnpm
  else if fs (pathResolve projectRoot "yarn.lock") then .yarn
  else .npm

/-- `resolveCwd`: resolve a pre-command cwd against the project root.
An absent (or empty, both falsy) cwd means the project root; absolute paths
pass through. -/
def resolveCwd (cwd : Option String) (projectRoot : String) : String :=
  match cwd with
  | none => projectRoot
  | some c =>
    if c = "" then projectRoot
    else if strStartsW c "/" then c
    else pathResolve projectRoot c

/-- `extractPreCommands`: merged pre_commands, skipped entirely when the
caller set `--skip-setup`; `undefined` when the merged list is empty. -/
def extractPreCommands (w : World) (spec : RunSpec) : Option (List PreCommand) :=
  if spec.skipSetup then none
  else
    let configCommands := getRunPreCommands w.kitweYaml
    if configCommands = [] then none
    else some (configCommands.map fun pc =>
      { argv := pc.argv, cwd := some (resolveCwd pc.cwd spec.projectRoot), env := pc.env })

/-- `resolveFromScript`: CLI-provided script → `<runner> run <script> [--] [args]`.
(The source reads `spec.script!`; here the non-null assertion is `getD ""`,
only reached when `strTruthy spec.script`.) -/
def resolveFromScript (w : World) (spec : RunSpec) : ResolvedCommand :=
  let runner := spec.runner.getD (detectPackageManager w.fs spec.projectRoot)
  let argv :=
    match spec.args with
    | some as =>
      if as.length > 0 then
        [runner.str, "run", spec.script.getD ""]
          ++ (if runner = .npm then ["--"] else []) ++ as
      else [runner.str, "run", spec.script.getD ""]
    | none => [runner.str, "run", spec.script.getD ""]
  { argv := argv
    cwd := spec.projectRoot
    mode := .cli_script
    preCommands := extractPreCommands w spec }

/-- `resolveFromConfig`: CLI-provided config path →
`npx playwright test --config=<path> [args]`, after an existence check. -/
def resolveFromConfig (w : World) (spec : RunSpec) : ResolveResult :=
  let configPath := spec.configPath.getD ""
  let configAbs := pathResolve spec.projectRoot configPath
  if !w.fs configAbs then
    .err { errorType := "config_not_found"
           message := "Playwright config not found: " ++ configAbs }
  else
    let argv := ["npx", "playwright", "test", "--config=" ++ configPath]
      ++ (match spec.args with
          | some as => if as.length > 0 then as else []
          | none => [])
    .cmd { argv := argv
           cwd := spec.projectRoot
           mode := .cli_config
           preCommands := extractPreCommands w spec }

/-- `resolveFromRunConfig`: entrypoint from the persisted `run:` section only.
Returns `none` when the run section has no (truthy) entrypoint. -/
def resolveFromRunConfig (w : World) (runConfig : RunConfig) (spec : RunSpec) :
    Option ResolveResult :=
  if !(strTruthy runConfig.script || strTruthy runConfig.configPath) then none
  else
    let preCommands := extractPreCommands w spec
    if strTruthy runConfig.script then
      let runner := runConfig.runner.getD (detectPackageManager w.fs spec.projectRoot)
      let allArgs := runConfig.args ++ (spec.args.getD [])
      let argv := [runner.str, "run", runConfig.script.getD ""]
        ++ (if allArgs.length > 0 then
              (if runner = .npm then ["--"] else []) ++ allArgs
            else [])
      some (.cmd { argv := argv
                   cwd := spec.projectRoot
                   mode := .yaml_script
                   env := runConfig.env
                   preCommands := preCommands })
    else if strTruthy runConfig.configPath then
      let configAbs := pathResolve spec.projectRoot (runConfig.configPath.getD "")
      if !w.fs configAbs then
        some (.err { errorType := "config_not_found"
                     message := "Playwright config from kitwe.yaml not found: " ++ configAbs })
      else
        let allArgs := runConfig.args ++ (spec.args.getD [])
        let argv := ["npx", "playwright", "test",
            "--config=" ++ runConfig.configPath.getD ""]
          ++ (if allArgs.length > 0 then allArgs else [])
        some (.cmd { argv := argv
                     cwd := spec.projectRoot
                     mode := .yaml_config
                     env := runConfig.env
                     preCommands := preCommands })
    else none

/-- The tier-5 `no_entrypoint` error of `resolveRunSpec`. -/
def noEntrypointError : ResolveResult :=
  .err { errorType := "no_entrypoint"
         message := "Run entrypoint not configured.\n\nAn explicit entrypoint is required. Set one of:\n  1. run.script in kitwe.yaml (e.g., \x27test:e2e\x27)\n  2. run.config_path in kitwe.yaml (e.g., \x27playwright.config.ts\x27)\n  3. CLI flag: --script <name> or --config <path>\n\nExample kitwe.yaml:\n  version: 1\n  run:\n    script: test:e2e\n\nOr:\n  version: 1\n  run:\n    config_path: playwright.config.ts" }

/-- `resolveRunSpec`: deterministic priority resolution.
1. CLI script; 2. CLI config path; 3. kitwe.yaml run section; 4. error. -/
def resolveRunSpec (w : World) (spec : RunSpec) : ResolveResult :=
  if !w.fs spec.projectRoot then
    .err { errorType := "project_not_found"
           message := "Project root does not exist: " ++ spec.projectRoot }
  else
    let runConfig := loadRunConfig w.kitweYaml
    if strTruthy spec.script then .cmd (resolveFromScript w spec)
    else if strTruthy spec.configPath then resolveFromConfig w spec
    else
      match runConfig with
      | some rc =>
        match resolveFromRunConfig w rc spec with
        | some result => result
        | none => noEntrypointError
      | none => noEntrypointError

-- =============================================================================
-- Executor (src/runner/executor.ts)
-- =============================================================================

/-- Default timeout for pre_commands (5 minutes), in milliseconds. -/
def PRE_COMMAND_TIMEOUT_MS : Nat := 5 * 60 * 1000

/-- The settled outcome of `runCommand` for one subprocess.  `exitCode` is
`number | null`; `timedOut` is set when the timeout handler fired. -/
structure CommandResult where
  exitCode : Option Int
  stdout : String := ""
  stderr : String := ""
  timedOut : Bool := false
  durationMs : Nat := 0
deriving DecidableEq, Repr

/-- JS template-literal rendering of a `number | null` exit code. -/
def exitCodeStr : Option Int → String
  | none => "null"
  | some n => toString n

inductive PreOutcome where
  | ok
  | fail (error : String) (logPath : String)
deriving DecidableEq, Repr

/-- The loop body of `runPreCommands`: walk the remaining pre-commands with
`i` the current 0-based index.  `exec i` is the subprocess oracle for step
`i` (`.error` = thrown spawn failure).  Besides the outcome, returns the
list of indices whose subprocess was actually invoked. -/
def preLoop (exec : Nat → Except String CommandResult) (logsDir : String) :
    List PreCommand → Nat → PreOutcome × List Nat
  | [], _ => (.ok, [])
  | pc :: rest, i =>
    let logPath := pathJoin logsDir ("pre_command_" ++ toString i ++ ".log")
    let cmdStr := joinSep " " pc.argv
    match exec i with
    | .error errorMsg =>
      (.fail ("Pre-command " ++ toString i ++ " error: " ++ errorMsg) logPath, [i])
    | .ok result =>
      if result.exitCode ≠ some 0 then
        (.fail ("Pre-command " ++ toString i ++ " failed with exit code "
            ++ exitCodeStr result.exitCode ++ ": " ++ cmdStr
            ++ "\nSee log: " ++ logPath) logPath, [i])
      else
        let next := preLoop exec logsDir rest (i + 1)
        (next.1, i :: next.2)

/-- `runPreCommands`: run pre_commands sequentially, failing fast. -/
def runPreCommands (pcs : List PreCommand) (exec : Nat → Except String CommandResult)
    (logsDir : String) : PreOutcome × List Nat :=
  preLoop exec logsDir pcs 0

-- =============================================================================
-- Artifact collection (src/runner/executor.ts)
-- =============================================================================

inductive ArtifactType where
  | screenshot | trace | video | report | other
deriving DecidableEq, Repr

structure ArtifactInfo where
  type : ArtifactType
  path : String
  name : String
  size : Nat
deriving DecidableEq, Repr

/-- JS `s.endsWith(suffix)`. -/
def strEndsW (s suffix : String) : Bool :=
  prefAt suffix.data.reverse s.data.reverse

/-- JS `s.toLowerCase()` (ASCII, which is all the patterns use). -/
def strToLower (s : String) : String := String.mk (s.data.map Char.toLower)

/-- `getArtifactType`: classify a file purely by its (lowercased) name. -/
def getArtifactType (filename : String) : Option ArtifactType :=
  let lower := strToLower filename
  if strEndsW lower ".png" || strEndsW lower ".jpg" || strEndsW lower ".jpeg" then
    some .screenshot
  else if strEndsW lower ".zip" && strIncludes lower "trace" then
    some .trace
  else if strEndsW lower ".webm" || strEndsW lower ".mp4" then
    some .video
  else if strEndsW lower ".html" && strIncludes lower "report" then
    some .report
  else if strEndsW lower ".json" && strIncludes lower "report" then
    some .report
  else
    none

/-- A directory entry as seen by `readdirSync` + `statSync`. -/
inductive FSEntry where
  | file (name : String) (size : Nat)
  | dir (name : String) (entries : List FSEntry)

/-- The entry-iteration of `collectArtifactsFromDir` over the listing of
directory `dirPath`, at recursion depth `depth`.  The source guards
`if (depth > 3) return` at function entry and recurses with `depth + 1`;
here that guard is inlined at the recursive call site (the two are
equivalent, and the top-level call at depth 0 never trips the guard). -/
def collectEntriesAux : String → List FSEntry → Nat → List ArtifactInfo
  | _, [], _ => []
  | dirPath, FSEntry.dir name sub :: rest, depth =>
    (if depth + 1 > 3 then [] else collectEntriesAux (pathJoin dirPath name) sub (depth + 1))
      ++ collectEntriesAux dirPath rest depth
  | dirPath, FSEntry.file name size :: rest, depth =>
    (match getArtifactType name with
      | some t => [{ type := t, path := pathJoin dirPath name, name := name, size := size }]
      | none => []) ++ collectEntriesAux dirPath rest depth

/-- `collectArtifactsFromDir`: recursively collect artifacts, bounded depth. -/
def collectArtifactsFromDir (dirPath : String) (entries : List FSEntry)
    (depth : Nat) : List ArtifactInfo :=
  if depth > 3 then [] else collectEntriesAux dirPath entries depth

-- =============================================================================
-- Command augmentation (src/runner/executor.ts)
-- =============================================================================

/-- The `flagsToInject` local of `prepareCommandWithReporter`: the reporter
flag, then the trace flag, each only when the joined argv does not already
contain the corresponding substring. -/
def flagsToInject (argv : List String) : List String :=
  (if !strIncludes (joinSep " " argv) "--reporter" then ["--reporter=list"] else [])
    ++ (if !strIncludes (joinSep " " argv) "--trace" then ["--trace=retain-on-failure"] else [])

/-- `prepareCommandWithReporter`: inject `--reporter=list` and
`--trace=retain-on-failure` unless already present as substrings of the
joined argv; in package-manager-script modes a `--` separator is pushed
first if the argv does not already contain that exact token. -/
def prepareCommandWithReporter (resolved : ResolvedCommand) : List String :=
  let argv := resolved.argv
  if flagsToInject argv = [] then argv
  else if [Mode.yaml_script, Mode.cli_script].contains resolved.mode then
    (if !argv.contains "--" then argv ++ ["--"] else argv) ++ flagsToInject argv
  else if [Mode.cli_config, Mode.yaml_config].contains resolved.mode then
    argv ++ flagsToInject argv
  else argv

-- =============================================================================
-- Environment layering (src/runner/executor.ts, lines 328-343)
-- =============================================================================

/-- `Object.assign(base, kvs)` seen as a map update: keys of `kvs` win. -/
def assignEnv (base : String → Option String) (kvs : List (String × String)) :
    String → Option String :=
  fun k =>
    match kvs.lookup k with
    | some v => some v
    | none => base k

/-- The execution environment of `runValidate`: inherited process env,
overridden by the forced keys `CI`/`PLAYWRIGHT_HTML_OPEN`, then by
`spec.env`, then by the resolved command env overlay. -/
def buildRunEnv (processEnv : String → Option String)
    (specEnv resolvedEnv : Option (List (String × String))) :
    String → Option String :=
  let base := fun k =>
    if k = "CI" then some "true"
    else if k = "PLAYWRIGHT_HTML_OPEN" then some "never"
    else processEnv k
  let withSpec :=
    match specEnv with
    | some kvs => assignEnv base kvs
    | none => base
  match resolvedEnv with
  | some kvs => assignEnv withSpec kvs
  | none => withSpec

-- =============================================================================
-- RunResult assembly and runValidate (src/runner/executor.ts)
-- =============================================================================

inductive RunStatus where
  | passed | failed | error | timeout
deriving DecidableEq, Repr

structure RunResult where
  status : RunStatus
  exitCode : Int
  stdout : String
  stderr : String
  durationMs : Nat
  artifacts : List ArtifactInfo
  command : Option (List String) := none
  error : Option String := none
deriving DecidableEq, Repr

/-- `createErrorResult` (wall-clock `durationMs` abstracted to 0). -/
def createErrorResult (errorType errorMessage : String) : RunResult :=
  { status := .error
    exitCode := -1
    stdout := ""
    stderr := ""
    durationMs := 0
    artifacts := []
    error := some ("[" ++ errorType ++ "] " ++ errorMessage) }

/-- The status derivation and errors array of `runValidate` lines 405-425:
each `(type, message)` pair is one pushed error object. -/
def statusAndErrors (timeoutSeconds : Nat) (result : CommandResult) :
    RunStatus × List (String × String) :=
  if result.timedOut then
    (.timeout, [("timeout", "Execution exceeded " ++ toString timeoutSeconds ++ "s timeout")])
  else if result.exitCode = none then
    (.error, [("execution_error", "Process terminated abnormally")])
  else if result.exitCode = some 0 then
    (.passed, [])
  else
    (.failed, [])

/-- The terminal RunResult assembled by `runValidate` after the main command
settled (lines 405-441). -/
def finishRunResult (timeoutSeconds : Nat) (finalArgv : List String)
    (artifacts : List ArtifactInfo) (result : CommandResult) : RunResult :=
  let se := statusAndErrors timeoutSeconds result
  { status := se.1
    exitCode := result.exitCode.getD (-1)
    stdout := result.stdout
    stderr := result.stderr
    durationMs := result.durationMs
    artifacts := artifacts
    command := some finalArgv
    error := if se.2 = [] then none else some (joinSep "\n" (se.2.map (·.2))) }

/-- The subprocess and filesystem-scan oracle for one `runValidate` call:
`preExec i` is what running the `i`-th pre-command would yield, `mainExec`
what running the main command would yield, and `scanned` what the artifact
scan of the search directories would find. -/
structure Oracle where
  preExec : Nat → Except String CommandResult
  mainExec : Except String CommandResult
  scanned : List ArtifactInfo := []

/-- Which subprocesses a `runValidate` call actually spawned. -/
structure RunTrace where
  preInvoked : List Nat
  mainInvoked : Bool
deriving DecidableEq, Repr

/-- The main-command phase of `runValidate` (reached only when resolution
succeeded and every pre-command exited 0). -/
def mainPhase (spec : RunSpec) (resolved : ResolvedCommand) (o : Oracle)
    (preInvoked : List Nat) : RunResult × RunTrace :=
  let finalArgv := prepareCommandWithReporter resolved
  match o.mainExec with
  | .error msg => (createErrorResult "execution_error" msg, ⟨preInvoked, true⟩)
  | .ok result =>
    (finishRunResult spec.timeoutSeconds finalArgv o.scanned result, ⟨preInvoked, true⟩)

/-- `runValidate`: resolve, run pre-commands fail-fast, then the main
command, and assemble the RunResult.  Log/stdout file writes and progress
callbacks are I/O with no effect on the result and are not modelled. -/
def runValidate (w : World) (spec : RunSpec) (o : Oracle) : RunResult × RunTrace :=
  match resolveRunSpec w spec with
  | .err e => (createErrorResult e.errorType e.message, ⟨[], false⟩)
  | .cmd resolved =>
    let artifactsDir := pathResolve spec.projectRoot spec.artifactsDir
    let logsDir := pathJoin artifactsDir "logs"
    match resolved.preCommands with
    | some pcs =>
      if pcs.length > 0 then
        let pre := runPreCommands pcs o.preExec logsDir
        match pre.1 with
        | .fail e _ => (createErrorResult "pre_command_failed" e, ⟨pre.2, false⟩)
        | .ok => mainPhase spec resolved o pre.2
      else mainPhase spec resolved o []
    | none => mainPhase spec resolved o []

-- =============================================================================
-- Helper lemmas on the string primitives
-- =============================================================================

theorem strAppend_assoc (a b c : String) : a ++ b ++ c = a ++ (b ++ c) := by
  apply String.ext
  simp [String.data_append]

theorem prefAt_append (p s t : List Char) (h : prefAt p s = true) :
    prefAt p (s ++ t) = true := by
  induction p generalizing s with
  | nil => rfl
  | cons a as ih =>
    cases s with
    | nil => simp [prefAt] at h
    | cons b bs =>
      simp only [prefAt, Bool.and_eq_true] at h ⊢
      exact ⟨h.1, ih bs h.2⟩

theorem hasSub_nil_sub (s : List Char) : hasSub [] s = true := by
  cases s <;> simp [hasSub, prefAt]

theorem hasSub_append_right (sub s t : List Char) (h : hasSub sub s = true) :
    hasSub sub (s ++ t) = true := by
  induction s with
  | nil =>
    cases sub with
    | nil => exact hasSub_nil_sub t
    | cons a as => simp [hasSub, prefAt] at h
  | cons c cs ih =>
    simp only [hasSub, Bool.or_eq_true] at h
    simp only [List.cons_append, hasSub, Bool.or_eq_true]
    rcases h with h | h
    · exact Or.inl (prefAt_append _ _ _ h)
    · exact Or.inr (ih h)

theorem hasSub_append_left (sub s t : List Char) (h : hasSub sub t = true) :
    hasSub sub (s ++ t) = true := by
  induction s with
  | nil => simpa using h
  | cons c cs ih =>
    simp only [List.cons_append, hasSub, Bool.or_eq_true]
    exact Or.inr ih

theorem strIncludes_append_r (s t sub : String)
    (h : strIncludes s sub = true) : strIncludes (s ++ t) sub = true := by
  cases s; cases t
  exact hasSub_append_right _ _ _ h

theorem strIncludes_append_l (s t sub : String)
    (h : strIncludes t sub = true) : strIncludes (s ++ t) sub = true := by
  cases s; cases t
  exact hasSub_append_left _ _ _ h

theorem joinSep_cons_cons (sep a b : String) (l : List String) :
    joinSep sep (a :: b :: l) = a ++ sep ++ joinSep sep (b :: l) := rfl

theorem joinSep_append (sep : String) (l m : List String) (hm : m ≠ []) :
    ∃ mid : String, joinSep sep (l ++ m) = mid ++ joinSep sep m ∧
      (l ≠ [] → mid = joinSep sep l ++ sep) ∧ (l = [] → mid = "") := by
  induction l with
  | nil =>
    refine ⟨"", by simp, by simp, fun _ => rfl⟩
  | cons a l ih =>
    rcases ih with ⟨mid, hmid, hne, hnil⟩
    cases hl : l with
    | nil =>
      subst hl
      cases m with
      | nil => exact absurd rfl hm
      | cons b m' =>
        refine ⟨a ++ sep, ?_, fun _ => rfl, by simp⟩
        simpa using joinSep_cons_cons sep a b m'
    | cons b l' =>
      subst hl
      refine ⟨a ++ sep ++ mid, ?_, fun _ => ?_, by simp⟩
      · have : joinSep sep (a :: b :: l' ++ m) = a ++ sep ++ joinSep sep (b :: l' ++ m) := by
          cases m with
          | nil => exact absurd rfl hm
          | cons c m' => exact joinSep_cons_cons sep a b (l' ++ c :: m')
        rw [List.cons_append] at this ⊢
        rw [this, hmid]
        simp [strAppend_assoc]
      · rw [hne (by simp), joinSep_cons_cons]
        simp [strAppend_assoc]

theorem strIncludes_joinSep_append (l m : List String) (sub : String)
    (h : strIncludes (joinSep " " l) sub = true) :
    strIncludes (joinSep " " (l ++ m)) sub = true := by
  cases m with
  | nil => simpa using h
  | cons b m' =>
    rcases joinSep_append " " l (b :: m') (by simp) with ⟨mid, hmid, hne, hnil⟩
    cases l with
    | nil =>
      simp only [joinSep] at h
      rw [List.nil_append]
      cases hsub : sub with
      | mk d =>
        cases d with
        | nil => exact hasSub_nil_sub _
        | cons c cs => subst hsub; simp [strIncludes, hasSub, prefAt] at h
    | cons a l' =>
      rw [hmid, hne (by simp)]
      rw [strAppend_assoc]
      exact strIncludes_append_r _ _ _ h

theorem strIncludes_joinSep_of_mem (x : String) (l : List String) (sub : String)
    (hx : x ∈ l) (h : strIncludes x sub = true) :
    strIncludes (joinSep " " l) sub = true := by
  induction l with
  | nil => cases hx
  | cons a l' ih =>
    rcases List.mem_cons.mp hx with rfl | hx'
    · cases l' with
      | nil => simpa [joinSep] using h
      | cons b l'' =>
        rw [joinSep_cons_cons]
        exact strIncludes_append_r _ _ _ (strIncludes_append_r _ _ _ h)
    · cases l' with
      | nil => cases hx'
      | cons b l'' =>
        rw [joinSep_cons_cons]
        exact strIncludes_append_l _ _ _ (ih hx')

-- =============================================================================
-- Claim theorems
-- =============================================================================

/-- C4: a RunSpec with script "test:e2e", no runner override, and a project
root with no lock files resolves to argv ["npm", "run", "test:e2e"] in mode
cli_script; the same spec with args ["--headed"] resolves to
["npm", "run", "test:e2e", "--", "--headed"], the "--" separator inserted
because the auto-detected runner is npm. -/
theorem c4_concrete_scenarios :
    resolveRunSpec ⟨fun p => p == "/proj", none⟩
        { projectRoot := "/proj", artifactsDir := "arts", timeoutSeconds := 60,
          script := some "test:e2e" } =
      .cmd { argv := ["npm", "run", "test:e2e"], cwd := "/proj", mode := .cli_script } ∧
    resolveRunSpec ⟨fun p => p == "/proj", none⟩
        { projectRoot := "/proj", artifactsDir := "arts", timeoutSeconds := 60,
          script := some "test:e2e", args := some ["--headed"] } =
      .cmd { argv := ["npm", "run", "test:e2e", "--", "--headed"], cwd := "/proj",
             mode := .cli_script } := by
  constructor <;> rfl

/-- C2: for a completed main-command execution, the RunResult status is
timeout when the timeout handler killed the process; else error (with
sentinel exitCode -1) when no exit code was obtainable; else passed exactly
when the exit code is 0; else failed for any nonzero exit code. -/
theorem c2_status_derivation (ts : Nat) (argv : List String)
    (arts : List ArtifactInfo) (r : CommandResult) :
    ((finishRunResult ts argv arts r).status = RunStatus.timeout ↔ r.timedOut = true) ∧
    (r.timedOut = false → r.exitCode = none →
      (finishRunResult ts argv arts r).status = RunStatus.error ∧
      (finishRunResult ts argv arts r).exitCode = -1) ∧
    ((finishRunResult ts argv arts r).status = RunStatus.passed ↔
      (r.timedOut = false ∧ r.exitCode = some 0)) ∧
    (∀ n : Int, r.timedOut = false → r.exitCode = some n → n ≠ 0 →
      (finishRunResult ts argv arts r).status = RunStatus.failed) := by
  rcases r with ⟨ec, so, se, tOut, d⟩
  cases tOut <;> rcases ec with _ | n <;>
    simp [finishRunResult, statusAndErrors] <;>
    by_cases hn : n = (0 : Int) <;> simp [hn]

/-- C2 witness: a run that exits with code 7 and no timeout is `failed`. -/
theorem c2_status_derivation_witness :
    (finishRunResult 60 ["npm", "run", "t"] []
      { exitCode := some 7 }).status = RunStatus.failed :=
  (c2_status_derivation 60 ["npm", "run", "t"] [] { exitCode := some 7 }).2.2.2
    7 rfl rfl (by decide)

/-- The key `k` is not bound by the optional env record `o`. -/
def absentIn (o : Option (List (String × String))) (k : String) : Prop :=
  ∀ kvs, o = some kvs → kvs.lookup k = none

/-- C8: the execution environment is a strict layering where later layers
win: resolved-command env overlay, then spec.env, then the two forced keys
CI/PLAYWRIGHT_HTML_OPEN, then the inherited process environment. -/
theorem c8_env_layering (penv : String → Option String)
    (specEnv resolvedEnv : Option (List (String × String))) (k : String) :
    (∀ kvs v, resolvedEnv = some kvs → kvs.lookup k = some v →
      buildRunEnv penv specEnv resolvedEnv k = some v) ∧
    (absentIn resolvedEnv k → ∀ kvs v, specEnv = some kvs → kvs.lookup k = some v →
      buildRunEnv penv specEnv resolvedEnv k = some v) ∧
    (absentIn resolvedEnv k → absentIn specEnv k → k = "CI" →
      buildRunEnv penv specEnv resolvedEnv k = some "true") ∧
    (absentIn resolvedEnv k → absentIn specEnv k → k = "PLAYWRIGHT_HTML_OPEN" →
      buildRunEnv penv specEnv resolvedEnv k = some "never") ∧
    (absentIn resolvedEnv k → absentIn specEnv k →
      k ≠ "CI" → k ≠ "PLAYWRIGHT_HTML_OPEN" →
      buildRunEnv penv specEnv resolvedEnv k = penv k) := by
  refine ⟨?_, ?_, ?_, ?_, ?_⟩
  · rintro kvs v rfl hv
    cases specEnv <;> simp [buildRunEnv, assignEnv, hv]
  · rintro habs kvs v rfl hv
    rcases resolvedEnv with _ | rkvs
    · simp [buildRunEnv, assignEnv, hv]
    · simp [buildRunEnv, assignEnv, hv, habs rkvs rfl]
  · rintro habs1 habs2 rfl
    rcases resolvedEnv with _ | rkvs
    · rcases specEnv with _ | skvs
      · simp [buildRunEnv, assignEnv]
      · simp [buildRunEnv, assignEnv, habs2 skvs rfl]
    · rcases specEnv with _ | skvs
      · simp [buildRunEnv, assignEnv, habs1 rkvs rfl]
      · simp [buildRunEnv, assignEnv, habs1 rkvs rfl, habs2 skvs rfl]
  · rintro habs1 habs2 rfl
    rcases resolvedEnv with _ | rkvs
    · rcases specEnv with _ | skvs
      · simp [buildRunEnv, assignEnv]
      · simp [buildRunEnv, assignEnv, habs2 skvs rfl]
    · rcases specEnv with _ | skvs
      · simp [buildRunEnv, assignEnv, habs1 rkvs rfl]
      · simp [buildRunEnv, assignEnv, habs1 rkvs rfl, habs2 skvs rfl]
  · rintro habs1 habs2 h1 h2
    rcases resolvedEnv with _ | rkvs
    · rcases specEnv with _ | skvs
      · simp [buildRunEnv, assignEnv, h1, h2]
      · simp [buildRunEnv, assignEnv, habs2 skvs rfl, h1, h2]
    · rcases specEnv with _ | skvs
      · simp [buildRunEnv, assignEnv, habs1 rkvs rfl, h1, h2]
      · simp [buildRunEnv, assignEnv, habs1 rkvs rfl, habs2 skvs rfl, h1, h2]

/-- C8 witness: with the key bound in all layers, the resolved-command
overlay wins. -/
theorem c8_env_layering_witness :
    buildRunEnv (fun _ => some "inherited") (some [("K", "fromSpec")])
      (some [("K", "fromResolved")]) "K" = some "fromResolved" :=
  (c8_env_layering (fun _ => some "inherited") (some [("K", "fromSpec")])
      (some [("K", "fromResolved")]) "K").1
    [("K", "fromResolved")] "fromResolved" rfl rfl

theorem getArtifactType_ne_other (name : String) :
    getArtifactType name ≠ some ArtifactType.other := by
  simp only [getArtifactType]
  split_ifs <;> simp

theorem collectEntriesAux_ne_other (dp : String) (es : List FSEntry) (d : Nat) :
    ∀ a ∈ collectEntriesAux dp es d, a.type ≠ ArtifactType.other := by
  induction dp, es, d using collectEntriesAux.induct with
  | case1 dp d =>
    intro a ha
    simp [collectEntriesAux] at ha
  | case2 dp name sub rest depth ih1 ih2 =>
    intro a ha
    simp only [collectEntriesAux, List.mem_append] at ha
    rcases ha with ha | ha
    · split at ha
      · simp at ha
      · exact ih1 a ha
    · exact ih2 a ha
  | case3 dp name size rest depth ih =>
    intro a ha
    simp only [collectEntriesAux, List.mem_append] at ha
    rcases ha with ha | ha
    · rcases hg : getArtifactType name with _ | t
      · rw [hg] at ha
        simp at ha
      · rw [hg] at ha
        simp only [List.mem_singleton] at ha
        subst ha
        simp only [ne_eq]
        intro h
        exact getArtifactType_ne_other name (h ▸ hg)
    · exact ih a ha

/-- C10: every ArtifactInfo the artifact scan can produce has type
screenshot, trace, video or report; the declared `other` type is never
produced, and a file whose name matches no pattern is omitted entirely. -/
theorem c10_no_other_artifacts :
    (∀ name, getArtifactType name ≠ some ArtifactType.other) ∧
    (∀ name, getArtifactType name = none →
      ∀ dp size d, collectArtifactsFromDir dp [FSEntry.file name size] d = []) ∧
    (∀ dirPath entries depth a, a ∈ collectArtifactsFromDir dirPath entries depth →
      a.type = ArtifactType.screenshot ∨ a.type = ArtifactType.trace ∨
      a.type = ArtifactType.video ∨ a.type = ArtifactType.report) := by
  refine ⟨getArtifactType_ne_other, ?_, ?_⟩
  · intro name hnone dp size d
    unfold collectArtifactsFromDir
    split
    · rfl
    · simp [collectEntriesAux, hnone]
  · intro dirPath entries depth a ha
    unfold collectArtifactsFromDir at ha
    split at ha
    · simp at ha
    · have := collectEntriesAux_ne_other dirPath entries depth a ha
      cases h : a.type <;> simp_all

/-- C10 witness: a png file at the scan root is collected as a screenshot. -/
theorem c10_no_other_artifacts_witness :
    ({ type := ArtifactType.screenshot, path := "/d/shot.png", name := "shot.png",
       size := 10 } : ArtifactInfo).type = ArtifactType.screenshot ∨
    ({ type := ArtifactType.screenshot, path := "/d/shot.png", name := "shot.png",
       size := 10 } : ArtifactInfo).type = ArtifactType.trace ∨
    ({ type := ArtifactType.screenshot, path := "/d/shot.png", name := "shot.png",
       size := 10 } : ArtifactInfo).type = ArtifactType.video ∨
    ({ type := ArtifactType.screenshot, path := "/d/shot.png", name := "shot.png",
       size := 10 } : ArtifactInfo).type = ArtifactType.report :=
  c10_no_other_artifacts.2.2 "/d" [FSEntry.file "shot.png" 10] 0
    { type := ArtifactType.screenshot, path := "/d/shot.png", name := "shot.png",
      size := 10 }
    (by
      have hg : getArtifactType "shot.png" = some ArtifactType.screenshot := by decide
      simp [collectArtifactsFromDir, collectEntriesAux, hg, pathJoin])

theorem getRunPreCommands_congr (c1 c2 : KitweConfig)
    (hrun : c1.run = c2.run) (hsetup : c1.setupPreCommands = c2.setupPreCommands) :
    getRunPreCommands (some c1) = getRunPreCommands (some c2) := by
  simp [getRunPreCommands, hrun, hsetup]

theorem extractPreCommands_congr (fs : String → Bool) (c1 c2 : KitweConfig)
    (spec : RunSpec) (hrun : c1.run = c2.run)
    (hsetup : c1.setupPreCommands = c2.setupPreCommands) :
    extractPreCommands ⟨fs, some c1⟩ spec = extractPreCommands ⟨fs, some c2⟩ spec := by
  simp only [extractPreCommands]
  rw [getRunPreCommands_congr c1 c2 hrun hsetup]

theorem resolveFromScript_congr (fs : String → Bool) (c1 c2 : KitweConfig)
    (spec : RunSpec) (hrun : c1.run = c2.run)
    (hsetup : c1.setupPreCommands = c2.setupPreCommands) :
    resolveFromScript ⟨fs, some c1⟩ spec = resolveFromScript ⟨fs, some c2⟩ spec := by
  simp only [resolveFromScript]
  rw [extractPreCommands_congr fs c1 c2 spec hrun hsetup]

theorem resolveFromConfig_congr (fs : String → Bool) (c1 c2 : KitweConfig)
    (spec : RunSpec) (hrun : c1.run = c2.run)
    (hsetup : c1.setupPreCommands = c2.setupPreCommands) :
    resolveFromConfig ⟨fs, some c1⟩ spec = resolveFromConfig ⟨fs, some c2⟩ spec := by
  simp only [resolveFromConfig]
  rw [extractPreCommands_congr fs c1 c2 spec hrun hsetup]

theorem resolveFromRunConfig_congr (fs : String → Bool) (c1 c2 : KitweConfig)
    (rc : RunConfig) (spec : RunSpec) (hrun : c1.run = c2.run)
    (hsetup : c1.setupPreCommands = c2.setupPreCommands) :
    resolveFromRunConfig ⟨fs, some c1⟩ rc spec =
      resolveFromRunConfig ⟨fs, some c2⟩ rc spec := by
  simp only [resolveFromRunConfig]
  rw [extractPreCommands_congr fs c1 c2 spec hrun hsetup]

/-- C5: persisted configurations that differ only in the tests section
(test_dir, pattern, ...) resolve identically for every RunSpec and
filesystem state: test-discovery configuration never influences command
selection. -/
theorem c5_tests_config_isolation (fs : String → Bool) (c1 c2 : KitweConfig)
    (spec : RunSpec) (hrun : c1.run = c2.run)
    (hsetup : c1.setupPreCommands = c2.setupPreCommands) :
    resolveRunSpec ⟨fs, some c1⟩ spec = resolveRunSpec ⟨fs, some c2⟩ spec := by
  simp only [resolveRunSpec, loadRunConfig, Option.map_some',
    resolveFromScript_congr fs c1 c2 spec hrun hsetup,
    resolveFromConfig_congr fs c1 c2 spec hrun hsetup]
  rw [hrun, resolveFromRunConfig_congr fs c1 c2 c2.run spec hrun hsetup]

/-- C5 witness: two configs differing only in tests.pattern resolve the
same spec identically. -/
theorem c5_tests_config_isolation_witness :
    resolveRunSpec
        ⟨fun p => p == "/proj",
         some { run := { script := some "t" },
                tests := { pattern := "**/*.spec.ts" } }⟩
        { projectRoot := "/proj", artifactsDir := "arts", timeoutSeconds := 60 } =
      resolveRunSpec
        ⟨fun p => p == "/proj",
         some { run := { script := some "t" },
                tests := { pattern := "e2e/**" } }⟩
        { projectRoot := "/proj", artifactsDir := "arts", timeoutSeconds := 60 } :=
  c5_tests_config_isolation (fun p => p == "/proj")
    { run := { script := some "t" }, tests := { pattern := "**/*.spec.ts" } }
    { run := { script := some "t" }, tests := { pattern := "e2e/**" } }
    { projectRoot := "/proj", artifactsDir := "arts", timeoutSeconds := 60 }
    rfl rfl

/-- C9: the persisted run.skip_setup flag and the caller flag are
asymmetric: with spec.skipSetup false, persisted skip_setup = true omits
only the setup-phase commands (run-phase commands are still included in
order), while spec.skipSetup = true omits all pre-commands entirely. -/
theorem c9_skip_setup_asymmetry (w : World) (spec : RunSpec) (c : KitweConfig)
    (hw : w.kitweYaml = some c) :
    (spec.skipSetup = false → c.run.skipSetup = true →
      extractPreCommands w spec =
        (if c.run.preCommands.getD [] = [] then none
         else some ((c.run.preCommands.getD []).map fun pc =>
           { argv := pc.argv, env := pc.env,
             cwd := some (resolveCwd pc.cwd spec.projectRoot) }))) ∧
    (spec.skipSetup = false → c.run.skipSetup = false →
      extractPreCommands w spec =
        (if c.setupPreCommands.getD [] ++ c.run.preCommands.getD [] = [] then none
         else some ((c.setupPreCommands.getD [] ++ c.run.preCommands.getD []).map fun pc =>
           { argv := pc.argv, env := pc.env,
             cwd := some (resolveCwd pc.cwd spec.projectRoot) }))) ∧
    (spec.skipSetup = true → extractPreCommands w spec = none) := by
  refine ⟨?_, ?_, ?_⟩
  · intro h1 h2
    simp [extractPreCommands, h1, getRunPreCommands, hw, h2]
  · intro h1 h2
    simp [extractPreCommands, h1, getRunPreCommands, hw, h2]
  · intro h1
    simp [extractPreCommands, h1]

/-- C9 witness: persisted skip_setup = true keeps the run-phase command
while spec.skipSetup = true drops everything. -/
theorem c9_skip_setup_asymmetry_witness :
    extractPreCommands
        ⟨fun _ => true,
         some { run := { skipSetup := true, preCommands := some [{ argv := ["migrate"] }] },
                setupPreCommands := some [{ argv := ["db-up"] }] }⟩
        { projectRoot := "/proj", artifactsDir := "arts", timeoutSeconds := 60 } =
      some [{ argv := ["migrate"], env := none, cwd := some "/proj" }] := by
  have h := (c9_skip_setup_asymmetry
    ⟨fun _ => true,
     some { run := { skipSetup := true, preCommands := some [{ argv := ["migrate"] }] },
            setupPreCommands := some [{ argv := ["db-up"] }] }⟩
    { projectRoot := "/proj", artifactsDir := "arts", timeoutSeconds := 60 }
    { run := { skipSetup := true, preCommands := some [{ argv := ["migrate"] }] },
      setupPreCommands := some [{ argv := ["db-up"] }] }
    rfl).1 rfl rfl
  rw [h]
  rfl

/-- C1: resolution follows the strict tier order with short-circuit: a
(truthy) spec.script always yields the caller-script command (mode
cli_script) with an argv independent of any persisted configuration; else a
(truthy) spec.configPath yields the caller-config tier; only with both
caller fields absent is the persisted run.script tried, then the persisted
run.configPath, and with no tier matching the result is a ResolvedError of
category no_entrypoint. -/
theorem c1_tier_order (w : World) (spec : RunSpec)
    (hroot : w.fs spec.projectRoot = true) :
    (strTruthy spec.script = true →
      resolveRunSpec w spec = ResolveResult.cmd (resolveFromScript w spec) ∧
      (resolveFromScript w spec).mode = Mode.cli_script ∧
      (∀ cfg cfg' : Option KitweConfig,
        (resolveFromScript ⟨w.fs, cfg⟩ spec).argv =
          (resolveFromScript ⟨w.fs, cfg'⟩ spec).argv)) ∧
    (strTruthy spec.script = false → strTruthy spec.configPath = true →
      resolveRunSpec w spec = resolveFromConfig w spec ∧
      (∀ rc, resolveFromConfig w spec = .cmd rc → rc.mode = Mode.cli_config) ∧
      (∀ e, resolveFromConfig w spec = .err e → e.errorType = "config_not_found")) ∧
    (strTruthy spec.script = false → strTruthy spec.configPath = false →
      ∀ c, w.kitweYaml = some c → strTruthy c.run.script = true →
        ∃ rc, resolveRunSpec w spec = .cmd rc ∧ rc.mode = Mode.yaml_script) ∧
    (strTruthy spec.script = false → strTruthy spec.configPath = false →
      ∀ c, w.kitweYaml = some c → strTruthy c.run.script = false →
        strTruthy c.run.configPath = true →
        (∃ rc, resolveRunSpec w spec = .cmd rc ∧ rc.mode = Mode.yaml_config) ∨
        (∃ m, resolveRunSpec w spec = .err { errorType := "config_not_found",
                                             message := m })) ∧
    (strTruthy spec.script = false → strTruthy spec.configPath = false →
      w.kitweYaml = none →
      ∃ m, resolveRunSpec w spec = .err { errorType := "no_entrypoint", message := m }) ∧
    (strTruthy spec.script = false → strTruthy spec.configPath = false →
      ∀ c, w.kitweYaml = some c → strTruthy c.run.script = false →
        strTruthy c.run.configPath = false →
        ∃ m, resolveRunSpec w spec = .err { errorType := "no_entrypoint",
                                            message := m }) := by
  refine ⟨?_, ?_, ?_, ?_, ?_, ?_⟩
  · intro h1
    refine ⟨by simp [resolveRunSpec, hroot, h1], rfl, fun cfg cfg' => rfl⟩
  · intro h1 h2
    refine ⟨by simp [resolveRunSpec, hroot, h1, h2], ?_, ?_⟩
    · intro rc hrc
      simp only [resolveFromConfig] at hrc
      split at hrc
      · cases hrc
      · cases hrc
        rfl
    · intro e he
      simp only [resolveFromConfig] at he
      split at he
      · cases he
        rfl
      · cases he
  · intro h1 h2 c hc hscript
    simp only [resolveRunSpec, hroot, h1, h2, hc, loadRunConfig, Option.map_some',
      Bool.not_true, Bool.false_eq_true, if_false]
    simp only [resolveFromRunConfig, hscript, Bool.true_or, Bool.not_true,
      Bool.false_eq_true, if_false, if_true]
    exact ⟨_, rfl, rfl⟩
  · intro h1 h2 c hc hscript hconfig
    simp only [resolveRunSpec, hroot, h1, h2, hc, loadRunConfig, Option.map_some',
      Bool.not_true, Bool.false_eq_true, if_false]
    simp only [resolveFromRunConfig, hscript, hconfig, Bool.false_or, Bool.not_true,
      Bool.false_eq_true, if_false, if_true]
    by_cases hfs : w.fs (pathResolve spec.projectRoot (c.run.configPath.getD "")) = true
    · left
      simp only [hfs, Bool.not_true, Bool.false_eq_true, if_false]
      exact ⟨_, rfl, rfl⟩
    · right
      simp only [Bool.not_eq_true] at hfs
      simp only [hfs, Bool.not_false, if_true]
      exact ⟨_, rfl⟩
  · intro h1 h2 hnone
    simp [resolveRunSpec, hroot, h1, h2, hnone, loadRunConfig, noEntrypointError]
  · intro h1 h2 c hc hscript hconfig
    simp only [resolveRunSpec, hroot, h1, h2, hc, loadRunConfig, Option.map_some',
      Bool.not_true, Bool.false_eq_true, if_false]
    simp only [resolveFromRunConfig, hscript, hconfig, Bool.false_or, Bool.not_false,
      if_true]
    exact ⟨_, rfl⟩

/-- C1 witness: with spec.script set and a persisted run.configPath also
present, resolution is the caller-script tier with mode cli_script. -/
theorem c1_tier_order_witness :
    resolveRunSpec
        ⟨fun p => p == "/proj", some { run := { configPath := some "pw.config.ts" } }⟩
        { projectRoot := "/proj", artifactsDir := "a", timeoutSeconds := 1,
          script := some "t" } =
      ResolveResult.cmd (resolveFromScript
        ⟨fun p => p == "/proj", some { run := { configPath := some "pw.config.ts" } }⟩
        { projectRoot := "/proj", artifactsDir := "a", timeoutSeconds := 1,
          script := some "t" }) ∧
    (resolveFromScript
        ⟨fun p => p == "/proj", some { run := { configPath := some "pw.config.ts" } }⟩
        { projectRoot := "/proj", artifactsDir := "a", timeoutSeconds := 1,
          script := some "t" }).mode = Mode.cli_script :=
  ⟨((c1_tier_order
      ⟨fun p => p == "/proj", some { run := { configPath := some "pw.config.ts" } }⟩
      { projectRoot := "/proj", artifactsDir := "a", timeoutSeconds := 1,
        script := some "t" } (by decide)).1 (by decide)).1,
   ((c1_tier_order
      ⟨fun p => p == "/proj", some { run := { configPath := some "pw.config.ts" } }⟩
      { projectRoot := "/proj", artifactsDir := "a", timeoutSeconds := 1,
        script := some "t" } (by decide)).1 (by decide)).2.1⟩

/-- Step `i` of the pre-command oracle succeeds: settled with exit code 0. -/
def succeedsAt (exec : Nat → Except String CommandResult) (i : Nat) : Prop :=
  ∃ r, exec i = .ok r ∧ r.exitCode = some 0

/-- Step `i` of the pre-command oracle fails: either a thrown spawn error,
or a settled result whose exit code is not 0 (which covers nonzero exits
and timeouts, whose exit code is never 0). -/
def failsAt (exec : Nat → Except String CommandResult) (i : Nat) : Prop :=
  (∃ m, exec i = .error m) ∨ (∃ r, exec i = .ok r ∧ r.exitCode ≠ some 0)

/-- The per-step log path `logsDir/pre_command_<i>.log`. -/
def preLogPath (logsDir : String) (i : Nat) : String :=
  pathJoin logsDir ("pre_command_" ++ toString i ++ ".log")

/-- The failure message `runPreCommands` produces when step `i` (running
pre-command `pc`) fails. -/
def preFailMsg (exec : Nat → Except String CommandResult) (logsDir : String)
    (i : Nat) (pc : PreCommand) : String :=
  match exec i with
  | .error m => "Pre-command " ++ toString i ++ " error: " ++ m
  | .ok r => "Pre-command " ++ toString i ++ " failed with exit code "
      ++ exitCodeStr r.exitCode ++ ": " ++ joinSep " " pc.argv
      ++ "\nSee log: " ++ preLogPath logsDir i

theorem preLoop_fail_fast (exec : Nat → Except String CommandResult) (logsDir : String) :
    ∀ (pcs : List PreCommand) (start k : Nat) (pck : PreCommand),
      pcs.get? k = some pck →
      (∀ j, j < k → succeedsAt exec (start + j)) →
      failsAt exec (start + k) →
      preLoop exec logsDir pcs start =
        (.fail (preFailMsg exec logsDir (start + k) pck) (preLogPath logsDir (start + k)),
          (List.range (k + 1)).map (start + ·)) := by
  intro pcs
  induction pcs with
  | nil =>
    intro start k pck hget _ _
    simp at hget
  | cons pc rest ih =>
    intro start k pck hget hprev hfail
    cases k with
    | zero =>
      simp only [List.get?] at hget
      injection hget with hget
      subst hget
      rw [Nat.add_zero] at hfail ⊢
      rcases hfail with ⟨m, hm⟩ | ⟨r, hr, hne⟩
      · simp [preLoop, hm, preFailMsg, preLogPath, List.range_succ]
      · simp [preLoop, hr, hne, preFailMsg, preLogPath, List.range_succ]
    | succ k' =>
      rcases hprev 0 (Nat.succ_pos k') with ⟨r0, hr0, hec0⟩
      rw [Nat.add_zero] at hr0
      have hshift : start + (k' + 1) = start + 1 + k' := by omega
      have hget' : rest.get? k' = some pck := hget
      have hprev' : ∀ j, j < k' → succeedsAt exec (start + 1 + j) := by
        intro j hj
        have := hprev (j + 1) (by omega)
        have harith : start + (j + 1) = start + 1 + j := by omega
        rwa [harith] at this
      have hfail' : failsAt exec (start + 1 + k') := by rwa [hshift] at hfail
      have hrec := ih (start + 1) k' pck hget' hprev' hfail'
      have hlist : List.map (fun x => start + x) (List.range (k' + 1 + 1)) =
          start :: List.map (fun x => start + 1 + x) (List.range (k' + 1)) := by
        rw [List.range_succ_eq_map]
        simp only [List.map_cons, List.map_map, Nat.add_zero, List.cons.injEq, true_and]
        apply List.map_congr_left
        intro x _
        simp only [Function.comp_apply]
        omega
      simp only [preLoop, hr0, hec0, ne_eq, not_true_eq_false, if_false, hrec, hshift]
      simp [hlist]

/-- C3: a run whose resolved command carries pre-commands fails fast: if
pre-command k (0-based here) exits non-zero, times out, or errors, and all
earlier ones exited 0, then exactly pre-commands 0..k were invoked, the
main command is never invoked, and the run terminates with a RunResult of
status error whose error summary carries category pre_command_failed. -/
theorem c3_pre_command_fail_fast (w : World) (spec : RunSpec) (o : Oracle)
    (rc : ResolvedCommand) (pcs : List PreCommand) (k : Nat) (pck : PreCommand)
    (hres : resolveRunSpec w spec = .cmd rc)
    (hpcs : rc.preCommands = some pcs)
    (hget : pcs.get? k = some pck)
    (hprev : ∀ j, j < k → succeedsAt o.preExec j)
    (hfail : failsAt o.preExec k) :
    (runValidate w spec o).2.preInvoked = List.range (k + 1) ∧
    (runValidate w spec o).2.mainInvoked = false ∧
    (runValidate w spec o).1.status = RunStatus.error ∧
    (∃ m, (runValidate w spec o).1.error = some ("[pre_command_failed] " ++ m)) := by
  have hlen : 0 < pcs.length := by
    cases pcs
    · simp at hget
    · simp
  have hloop := preLoop_fail_fast o.preExec
      (pathJoin (pathResolve spec.projectRoot spec.artifactsDir) "logs")
      pcs 0 k pck hget
      (by intro j hj; rw [Nat.zero_add]; exact hprev j hj)
      (by rw [Nat.zero_add]; exact hfail)
  have hrv : runValidate w spec o =
      (createErrorResult "pre_command_failed"
         (preFailMsg o.preExec
           (pathJoin (pathResolve spec.projectRoot spec.artifactsDir) "logs") (0 + k) pck),
       ⟨(List.range (k + 1)).map (0 + ·), false⟩) := by
    simp only [runValidate, hres, hpcs, runPreCommands, hlen, if_true, hloop]
  rw [hrv]
  refine ⟨by simp, rfl, rfl, ?_⟩
  refine ⟨preFailMsg o.preExec
      (pathJoin (pathResolve spec.projectRoot spec.artifactsDir) "logs") (0 + k) pck, ?_⟩
  simp only [createErrorResult]
  rw [show ("[" ++ "pre_command_failed" ++ "] " : String) = "[pre_command_failed] " by rfl]

/-- A concrete world for executor witnesses: project root `/proj`, persisted
script entrypoint, three pre-commands. -/
def wit3World : World :=
  ⟨fun p => p == "/proj",
   some { run := { script := some "t",
                   preCommands := some [{ argv := ["a"] }, { argv := ["b"] },
                                        { argv := ["c"] }] } }⟩

def wit3Spec : RunSpec :=
  { projectRoot := "/proj", artifactsDir := "arts", timeoutSeconds := 60 }

/-- An oracle whose second pre-command (index 1) exits with code 2 and whose
other subprocesses exit 0. -/
def wit3Oracle : Oracle :=
  { preExec := fun i => if i == 1 then .ok { exitCode := some 2 }
                        else .ok { exitCode := some 0 },
    mainExec := .ok { exitCode := some 0 } }

/-- C3 witness: with three pre-commands whose second exits non-zero, only
pre-commands 0 and 1 run, the main command never runs, and the run ends in
an error RunResult with category pre_command_failed. -/
theorem c3_pre_command_fail_fast_witness :
    (runValidate wit3World wit3Spec wit3Oracle).2.preInvoked = List.range 2 ∧
    (runValidate wit3World wit3Spec wit3Oracle).2.mainInvoked = false ∧
    (runValidate wit3World wit3Spec wit3Oracle).1.status = RunStatus.error ∧
    (∃ m, (runValidate wit3World wit3Spec wit3Oracle).1.error =
      some ("[pre_command_failed] " ++ m)) :=
  c3_pre_command_fail_fast wit3World wit3Spec wit3Oracle
    { argv := ["npm", "run", "t"], cwd := "/proj", mode := Mode.yaml_script,
      env := none,
      preCommands := some [{ argv := ["a"], env := none, cwd := some "/proj" },
                           { argv := ["b"], env := none, cwd := some "/proj" },
                           { argv := ["c"], env := none, cwd := some "/proj" }] }
    [{ argv := ["a"], env := none, cwd := some "/proj" },
     { argv := ["b"], env := none, cwd := some "/proj" },
     { argv := ["c"], env := none, cwd := some "/proj" }]
    1
    { argv := ["b"], env := none, cwd := some "/proj" }
    rfl rfl rfl
    (by
      intro j hj
      have hj0 : j = 0 := Nat.lt_one_iff.mp hj
      subst hj0
      exact ⟨{ exitCode := some 0 }, rfl, rfl⟩)
    (Or.inr ⟨{ exitCode := some 2 }, rfl, by decide⟩)

/-- C7 counterexample: with the pre-command at 1-indexed position 2 failing
(exit code 2), the pre_command_failed summary says "Pre-command 1" — the
0-based list index — and never mentions step number 2, so the claim that
the summary names the step by its 1-indexed number is false on the code. -/
theorem c7_counterexample_zero_indexed :
    (runValidate wit3World wit3Spec wit3Oracle).1.error =
      some "[pre_command_failed] Pre-command 1 failed with exit code 2: b\nSee log: /proj/arts/logs/pre_command_1.log" ∧
    strIncludes ((runValidate wit3World wit3Spec wit3Oracle).1.error.getD "")
      "Pre-command 2" = false ∧
    strIncludes ((runValidate wit3World wit3Spec wit3Oracle).1.error.getD "")
      "Pre-command 1" = true := by
  refine ⟨rfl, by decide, by decide⟩

/-- C7 amended: the pre_command_failed error summary names the failing step
by its 0-based list index (one less than its 1-indexed position); for an
exit-code failure it includes the command string, the exit code, and the
per-step log path, whose filename uses the same 0-based index.  (Only the
progress notification uses 1-indexed numbering; a thrown spawn error
produces a shorter message without command string or log path.) -/
theorem c7_amended_zero_indexed (w : World) (spec : RunSpec) (o : Oracle)
    (rc : ResolvedCommand) (pcs : List PreCommand) (k : Nat) (pck : PreCommand)
    (r : CommandResult)
    (hres : resolveRunSpec w spec = .cmd rc)
    (hpcs : rc.preCommands = some pcs)
    (hget : pcs.get? k = some pck)
    (hprev : ∀ j, j < k → succeedsAt o.preExec j)
    (hok : o.preExec k = .ok r)
    (hbad : r.exitCode ≠ some 0) :
    (runValidate w spec o).1.error =
      some ("[pre_command_failed] " ++
        ("Pre-command " ++ toString k ++ " failed with exit code "
          ++ exitCodeStr r.exitCode ++ ": " ++ joinSep " " pck.argv
          ++ "\nSee log: "
          ++ preLogPath (pathJoin (pathResolve spec.projectRoot spec.artifactsDir) "logs")
              k)) := by
  have hlen : 0 < pcs.length := by
    cases pcs
    · simp at hget
    · simp
  have hloop := preLoop_fail_fast o.preExec
      (pathJoin (pathResolve spec.projectRoot spec.artifactsDir) "logs")
      pcs 0 k pck hget
      (by intro j hj; rw [Nat.zero_add]; exact hprev j hj)
      (by rw [Nat.zero_add]; exact Or.inr ⟨r, hok, hbad⟩)
  have hrv : runValidate w spec o =
      (createErrorResult "pre_command_failed"
         (preFailMsg o.preExec
           (pathJoin (pathResolve spec.projectRoot spec.artifactsDir) "logs") (0 + k) pck),
       ⟨(List.range (k + 1)).map (0 + ·), false⟩) := by
    simp only [runValidate, hres, hpcs, runPreCommands, hlen, if_true, hloop]
  rw [hrv]
  simp only [createErrorResult, preFailMsg, Nat.zero_add, hok]
  rw [show ("[" ++ "pre_command_failed" ++ "] " : String) = "[pre_command_failed] " by rfl]

/-- C7 amended witness: for the run whose second pre-command (0-based index
1) exits with code 2, the summary carries index 1, the command string "b",
exit code 2 and log path pre_command_1.log. -/
theorem c7_amended_zero_indexed_witness :
    (runValidate wit3World wit3Spec wit3Oracle).1.error =
      some ("[pre_command_failed] " ++
        ("Pre-command " ++ toString 1 ++ " failed with exit code "
          ++ exitCodeStr (some 2) ++ ": " ++ joinSep " " ["b"]
          ++ "\nSee log: "
          ++ preLogPath (pathJoin (pathResolve "/proj" "arts") "logs") 1)) :=
  c7_amended_zero_indexed wit3World wit3Spec wit3Oracle
    { argv := ["npm", "run", "t"], cwd := "/proj", mode := Mode.yaml_script,
      env := none,
      preCommands := some [{ argv := ["a"], env := none, cwd := some "/proj" },
                           { argv := ["b"], env := none, cwd := some "/proj" },
                           { argv := ["c"], env := none, cwd := some "/proj" }] }
    [{ argv := ["a"], env := none, cwd := some "/proj" },
     { argv := ["b"], env := none, cwd := some "/proj" },
     { argv := ["c"], env := none, cwd := some "/proj" }]
    1
    { argv := ["b"], env := none, cwd := some "/proj" }
    { exitCode := some 2 }
    rfl rfl rfl
    (by
      intro j hj
      have hj0 : j = 0 := Nat.lt_one_iff.mp hj
      subst hj0
      exact ⟨{ exitCode := some 0 }, rfl, rfl⟩)
    rfl (by decide)

theorem prepare_noop_of_present (rc : ResolvedCommand)
    (h1 : strIncludes (joinSep " " rc.argv) "--reporter" = true)
    (h2 : strIncludes (joinSep " " rc.argv) "--trace" = true) :
    prepareCommandWithReporter rc = rc.argv := by
  simp [prepareCommandWithReporter, flagsToInject, h1, h2]

theorem prepare_output_cases (rc : ResolvedCommand) :
    (flagsToInject rc.argv = [] ∧ prepareCommandWithReporter rc = rc.argv) ∨
    (∃ pre : List String, (pre = [] ∨ pre = ["--"]) ∧
      prepareCommandWithReporter rc = rc.argv ++ (pre ++ flagsToInject rc.argv)) := by
  obtain ⟨argv, cwd, mode, env, pre0⟩ := rc
  by_cases hf : flagsToInject argv = []
  · left
    exact ⟨hf, by simp [prepareCommandWithReporter, hf]⟩
  · right
    cases mode
    · have hm : [Mode.yaml_script, Mode.cli_script].contains Mode.cli_script = true := by
        decide
      by_cases hd : argv.contains "--" = true
      · have hd2 : "--" ∈ argv := by simpa using hd
        exact ⟨[], Or.inl rfl,
          by simp [prepareCommandWithReporter, hf, hm, hd2]⟩
      · have hd2 : "--" ∉ argv := by simpa using hd
        refine ⟨["--"], Or.inr rfl, ?_⟩
        simp [prepareCommandWithReporter, hf, hm, hd2, List.append_assoc]
    · have hm : [Mode.yaml_script, Mode.cli_script].contains Mode.cli_config = false := by
        decide
      have hm2 : [Mode.cli_config, Mode.yaml_config].contains Mode.cli_config = true := by
        decide
      exact ⟨[], Or.inl rfl, by simp [prepareCommandWithReporter, hf, hm, hm2]⟩
    · have hm : [Mode.yaml_script, Mode.cli_script].contains Mode.yaml_script = true := by
        decide
      by_cases hd : argv.contains "--" = true
      · have hd2 : "--" ∈ argv := by simpa using hd
        exact ⟨[], Or.inl rfl,
          by simp [prepareCommandWithReporter, hf, hm, hd2]⟩
      · have hd2 : "--" ∉ argv := by simpa using hd
        refine ⟨["--"], Or.inr rfl, ?_⟩
        simp [prepareCommandWithReporter, hf, hm, hd2, List.append_assoc]
    · have hm : [Mode.yaml_script, Mode.cli_script].contains Mode.yaml_config = false := by
        decide
      have hm2 : [Mode.cli_config, Mode.yaml_config].contains Mode.yaml_config = true := by
        decide
      exact ⟨[], Or.inl rfl, by simp [prepareCommandWithReporter, hf, hm, hm2]⟩

theorem flagsToInject_nil_means_present (argv : List String)
    (hf : flagsToInject argv = []) :
    strIncludes (joinSep " " argv) "--reporter" = true ∧
    strIncludes (joinSep " " argv) "--trace" = true := by
  constructor
  · by_contra h
    simp only [Bool.not_eq_true] at h
    simp [flagsToInject, h] at hf
  · by_contra h
    simp only [Bool.not_eq_true] at h
    simp [flagsToInject, h] at hf

theorem prepare_has_needles (rc : ResolvedCommand) :
    strIncludes (joinSep " " (prepareCommandWithReporter rc)) "--reporter" = true ∧
    strIncludes (joinSep " " (prepareCommandWithReporter rc)) "--trace" = true := by
  rcases prepare_output_cases rc with ⟨hf, hout⟩ | ⟨pre, hpre, hout⟩
  · rw [hout]
    exact flagsToInject_nil_means_present rc.argv hf
  · rw [hout]
    constructor
    · by_cases h1 : strIncludes (joinSep " " rc.argv) "--reporter" = true
      · exact strIncludes_joinSep_append _ _ _ h1
      · simp only [Bool.not_eq_true] at h1
        refine strIncludes_joinSep_of_mem "--reporter=list" _ _ ?_ (by decide)
        refine List.mem_append_right _ (List.mem_append_right _ ?_)
        simp [flagsToInject, h1]
    · by_cases h2 : strIncludes (joinSep " " rc.argv) "--trace" = true
      · exact strIncludes_joinSep_append _ _ _ h2
      · simp only [Bool.not_eq_true] at h2
        refine strIncludes_joinSep_of_mem "--trace=retain-on-failure" _ _ ?_ (by decide)
        refine List.mem_append_right _ (List.mem_append_right _ ?_)
        simp [flagsToInject, h2]

/-- C6: command augmentation is presence-guarded and idempotent: the
reporter (resp. trace) flag is never appended when the joined argv already
contains the substring "--reporter" (resp. "--trace"), and augmenting the
already-augmented command yields the same argv. -/
theorem c6_idempotent_flag_injection (rc : ResolvedCommand) :
    (strIncludes (joinSep " " rc.argv) "--reporter" = true →
      "--reporter=list" ∉ (prepareCommandWithReporter rc).drop rc.argv.length) ∧
    (strIncludes (joinSep " " rc.argv) "--trace" = true →
      "--trace=retain-on-failure" ∉ (prepareCommandWithReporter rc).drop rc.argv.length) ∧
    prepareCommandWithReporter { rc with argv := prepareCommandWithReporter rc } =
      prepareCommandWithReporter rc := by
  refine ⟨?_, ?_, ?_⟩
  · intro h1
    rcases prepare_output_cases rc with ⟨hf, hout⟩ | ⟨pre, hpre, hout⟩
    · rw [hout, List.drop_length]
      simp
    · rw [hout, List.drop_left]
      rcases hpre with rfl | rfl <;>
        · simp only [flagsToInject, h1, Bool.not_true, Bool.false_eq_true, if_false]
          split <;> simp_all
  · intro h2
    rcases prepare_output_cases rc with ⟨hf, hout⟩ | ⟨pre, hpre, hout⟩
    · rw [hout, List.drop_length]
      simp
    · rw [hout, List.drop_left]
      rcases hpre with rfl | rfl <;>
        · simp only [flagsToInject, h2, Bool.not_true, Bool.false_eq_true, if_false,
            List.append_nil]
          split <;> simp_all
  · have hn := prepare_has_needles rc
    exact prepare_noop_of_present { rc with argv := prepareCommandWithReporter rc }
      hn.1 hn.2

/-- C6 witness: an argv already containing a reporter flag gains no second
reporter flag, and a second augmentation is the identity. -/
theorem c6_idempotent_flag_injection_witness :
    ("--reporter=list" ∉
      (prepareCommandWithReporter
        { argv := ["npx", "playwright", "test", "--reporter=dot"],
          cwd := "/p", mode := Mode.cli_config }).drop
        (["npx", "playwright", "test", "--reporter=dot"] : List String).length) ∧
    prepareCommandWithReporter
        { argv := prepareCommandWithReporter
            { argv := ["npx", "playwright", "test", "--reporter=dot"],
              cwd := "/p", mode := Mode.cli_config },
          cwd := "/p", mode := Mode.cli_config } =
      prepareCommandWithReporter
        { argv := ["npx", "playwright", "test", "--reporter=dot"],
          cwd := "/p", mode := Mode.cli_config } :=
  ⟨(c6_idempotent_flag_injection
      { argv := ["npx", "playwright", "test", "--reporter=dot"],
        cwd := "/p", mode := Mode.cli_config }).1 (by decide),
   (c6_idempotent_flag_injection
      { argv := ["npx", "playwright", "test", "--reporter=dot"],
        cwd := "/p", mode := Mode.cli_config }).2.2⟩
